import Mathlib

/-!
Shallow embedding of the RTG market-making autotraders
(`autotrader_aventador.py`, `autotrader_V1.py`, `autotrader_Allevaneda_3.py`,
`autotrader_Allevaneda_test3.py`) together with proofs settling the claims of
the natural-language specification.

Conventions of the embedding:
* Python floats are modelled as exact rationals (`ℚ`) where every claim is
  about finite arithmetic, and as reals (`ℝ`) where the code applies `np.log`
  or `np.sqrt`.
* Prices are integer cents (`ℤ`); `TICK_SIZE_IN_CENTS = 100` appears as the
  literal `100`.
* Python `//` on nonnegative reals is `Int.floor` of the quotient; on machine
  integers it is `Int.fdiv`.
* A Python expression that raises (the missing `self.size` attribute of the
  aventador `VolatilityIndicator`) is modelled with `Option`, `none` standing
  for the raised `AttributeError`.
-/

set_option maxHeartbeats 1000000

namespace RTG

/-- Order side, after the `ready_trader_go` enum: `SELL` (alias `ASK`) and
`BUY` (alias `BID`). -/
inductive Side where
  | SELL : Side
  | BUY : Side
deriving DecidableEq

/-- Alias from `ready_trader_go`: `Side.ASK = Side.SELL`. -/
def Side.ASK : Side := Side.SELL

/-- Alias from `ready_trader_go`: `Side.BID = Side.BUY`. -/
def Side.BID : Side := Side.BUY

/-- Order lifespan, after the `ready_trader_go` enum. -/
inductive Lifespan where
  | GOOD_FOR_DAY : Lifespan
  | FILL_AND_KILL : Lifespan
deriving DecidableEq

/-- Outbound order-entry calls emitted by a trader: `send_insert_order`,
`send_cancel_order` and `send_hedge_order`. -/
inductive Action where
  | insert (id : Nat) (side : Side) (price : ℤ) (volume : ℤ) (lifespan : Lifespan)
  | cancel (id : Nat)
  | hedge (id : Nat) (side : Side) (price : ℤ) (volume : ℤ)
deriving DecidableEq

/-- Recognise a hedge submission among the emitted actions. -/
def Action.isHedge : Action → Bool
  | .hedge _ _ _ _ => true
  | _ => false

/-- Recognise an insert submission among the emitted actions. -/
def Action.isInsert : Action → Bool
  | .insert _ _ _ _ _ => true
  | _ => false

/-- `MIN_BID_NEAREST_TICK = (MINIMUM_BID + TICK_SIZE_IN_CENTS) // TICK_SIZE_IN_CENTS
* TICK_SIZE_IN_CENTS`; `MINIMUM_BID` comes from the external `ready_trader_go`
library, so it is kept as a parameter. -/
def MIN_BID_NEAREST_TICK (MINIMUM_BID : ℤ) : ℤ := (MINIMUM_BID + 100).fdiv 100 * 100

/-- `MAX_ASK_NEAREST_TICK = MAXIMUM_ASK // TICK_SIZE_IN_CENTS * TICK_SIZE_IN_CENTS`;
`MAXIMUM_ASK` comes from the external `ready_trader_go` library. -/
def MAX_ASK_NEAREST_TICK (MAXIMUM_ASK : ℤ) : ℤ := MAXIMUM_ASK.fdiv 100 * 100

namespace Aventador

/-- `bid_avellaneda = int((reservation_price - optimal_spread/2) // TICK_SIZE_IN_CENTS)
* TICK_SIZE_IN_CENTS` (autotrader_aventador.py line 162); the raw bid is floored
to the tick. -/
def bid_avellaneda {α : Type} [LinearOrderedField α] [FloorRing α] (r δ : α) : ℤ :=
  ⌊(r - δ / 2) / 100⌋ * 100

/-- `ask_avellaneda = int((reservation_price + optimal_spread/2) // TICK_SIZE_IN_CENTS)
* TICK_SIZE_IN_CENTS` (autotrader_aventador.py line 163); note that the raw ask is
also floored (`//`), not ceiled. -/
def ask_avellaneda {α : Type} [LinearOrderedField α] [FloorRing α] (r δ : α) : ℤ :=
  ⌊(r + δ / 2) / 100⌋ * 100

/-- `min_spread = self.mid_price / 100 * self.min_spread_pct` with
`MIN_SPREAD_PCT = 0.4` (autotrader_aventador.py line 158). -/
def min_spread {α : Type} [LinearOrderedField α] (mid : α) : α :=
  mid / 100 * (2 / 5)

/-- `max_bid_price = int((self.mid_price - min_spread/2) // TICK_SIZE_IN_CENTS)
* TICK_SIZE_IN_CENTS` (autotrader_aventador.py line 167). -/
def max_bid_price {α : Type} [LinearOrderedField α] [FloorRing α] (mid : α) : ℤ :=
  ⌊(mid - min_spread mid / 2) / 100⌋ * 100

/-- `min_ask_price = int((self.mid_price + min_spread/2) // TICK_SIZE_IN_CENTS)
* TICK_SIZE_IN_CENTS` (autotrader_aventador.py line 168). -/
def min_ask_price {α : Type} [LinearOrderedField α] [FloorRing α] (mid : α) : ℤ :=
  ⌊(mid + min_spread mid / 2) / 100⌋ * 100

/-- `new_bid_price = min(max_bid_price, bid_avellaneda)` (line 172), as a function
of the mid price and an already tick-rounded raw bid. -/
def new_bid_price_of {α : Type} [LinearOrderedField α] [FloorRing α]
    (mid : α) (bidAv : ℤ) : ℤ :=
  min (max_bid_price mid) bidAv

/-- `new_ask_price = max(min_ask_price, ask_avellaneda)` (line 173), as a function
of the mid price and an already tick-rounded raw ask. -/
def new_ask_price_of {α : Type} [LinearOrderedField α] [FloorRing α]
    (mid : α) (askAv : ℤ) : ℤ :=
  max (min_ask_price mid) askAv

/-- `reservation_price = self.mid_price - self.position * self.gamma *
self.sigma**2 * T_minus_t * TICK_SIZE_IN_CENTS` (autotrader_aventador.py line 155). -/
noncomputable def reservation_price (mid position gamma sigma t : ℝ) : ℝ :=
  mid - position * gamma * sigma ^ 2 * t * 100

/-- `optimal_spread = self.gamma * self.sigma**2 * T_minus_t
+ 2 * np.log(1 + self.gamma/self.kappa)/self.gamma` followed by
`optimal_spread *= TICK_SIZE_IN_CENTS` (autotrader_aventador.py lines 156-157). -/
noncomputable def optimal_spread (gamma sigma kappa t : ℝ) : ℝ :=
  (gamma * sigma ^ 2 * t + 2 * Real.log (1 + gamma / kappa) / gamma) * 100

/-- Final bid of the aventador quote pipeline (lines 155-172). -/
noncomputable def new_bid_price (mid q gamma sigma kappa t : ℝ) : ℤ :=
  new_bid_price_of mid
    (bid_avellaneda (reservation_price mid q gamma sigma t) (optimal_spread gamma sigma kappa t))

/-- Final ask of the aventador quote pipeline (lines 155-173). -/
noncomputable def new_ask_price (mid q gamma sigma kappa t : ℝ) : ℤ :=
  new_ask_price_of mid
    (ask_avellaneda (reservation_price mid q gamma sigma t) (optimal_spread gamma sigma kappa t))

end Aventador

namespace Spec

/-- Modelled from the spec's words (section 4.2), for comparison only: the raw
ask `r + δ/2` "ceiled upward to the nearest price tick". The source floors
instead; this definition is what claim C3 asserts. -/
def ask_ceiled {α : Type} [LinearOrderedField α] [FloorRing α] (r δ : α) : ℤ :=
  ⌈(r + δ / 2) / 100⌉ * 100

/-- Modelled from the spec's words (section 4.2), for comparison only:
reservation price `r = m − q·γ·σ²·τ·tick_scale`. -/
noncomputable def reservationPrice (m q gamma sigma tau : ℝ) : ℝ :=
  m - q * gamma * sigma ^ 2 * tau * 100

/-- Modelled from the spec's words (section 4.2), for comparison only: optimal
full spread `δ = γ·σ²·τ + (2/γ)·ln(1 + γ/κ)`, the whole of it scaled to price
ticks. -/
noncomputable def optimalSpreadTicks (gamma sigma kappa tau : ℝ) : ℝ :=
  (gamma * sigma ^ 2 * tau + (2 / gamma) * Real.log (1 + gamma / kappa)) * 100

end Spec

/-- Model of `collections.deque(maxlen=n).append`: when the buffer is full the
oldest element is evicted. -/
def dequeAppend {β : Type} (maxlen : Nat) (l : List β) (x : β) : List β :=
  if maxlen ≤ l.length then l.tail ++ [x] else l ++ [x]

namespace Aventador

/-- Trader state of autotrader_aventador.py relevant to the quote lifecycle:
`bid_id`/`ask_id` (0 = no pending local order), the stored quote prices, the
signed position, the `itertools.count(1)` order-id counter, and the `bids` /
`asks` id sets.  The `liveBids`/`liveAsks` fields are ghost instrumentation:
the ids of orders submitted through `send_insert_order` whose terminal
acknowledgement (`remaining_volume == 0`) has not yet been processed, i.e. the
orders that may still be resting at the venue. -/
structure TraderState where
  bid_id : Nat
  bid_price : ℤ
  ask_id : Nat
  ask_price : ℤ
  position : ℤ
  next_id : Nat
  bids : List Nat
  asks : List Nat
  liveBids : List Nat
  liveAsks : List Nat
deriving DecidableEq

/-- Initial state from `__init__`: all ids and prices zero, order counter at 1. -/
def initialState : TraderState := ⟨0, 0, 0, 0, 0, 1, [], [], [], []⟩

/-- Cancel conditions of autotrader_aventador.py lines 186-191.  Python
precedence makes each condition `(id != 0 and price-changed) or stale-price`. -/
def cancelPhase (s : TraderState) (new_bid_price new_ask_price lastBid lastAsk : ℤ) :
    List Action :=
  (if (s.bid_id ≠ 0 ∧ new_bid_price ≠ s.bid_price ∧ new_bid_price ≠ 0) ∨
      s.bid_price < lastBid - 100 then [Action.cancel s.bid_id] else []) ++
  (if (s.ask_id ≠ 0 ∧ new_ask_price ≠ s.ask_price ∧ new_ask_price ≠ 0) ∨
      s.ask_price > lastAsk + 100 then [Action.cancel s.ask_id] else [])

/-- Bid insertion block of autotrader_aventador.py lines 193-206. -/
def bidInsertPhase (s : TraderState) (new_bid_price : ℤ) : TraderState × List Action :=
  if s.bid_id = 0 ∧ new_bid_price ≠ 0 ∧ s.position < 100 then
    ({ s with bid_id := s.next_id, bid_price := new_bid_price, next_id := s.next_id + 1,
              bids := s.bids ++ [s.next_id], liveBids := s.liveBids ++ [s.next_id] },
     [if s.position = -100 then
        Action.insert s.next_id Side.BUY (new_bid_price + 100) 175 Lifespan.GOOD_FOR_DAY
      else
        Action.insert s.next_id Side.BUY new_bid_price (min 50 (100 - s.position))
          Lifespan.GOOD_FOR_DAY])
  else (s, [])

/-- Ask insertion block of autotrader_aventador.py lines 208-221. -/
def askInsertPhase (s : TraderState) (new_ask_price : ℤ) : TraderState × List Action :=
  if s.ask_id = 0 ∧ new_ask_price ≠ 0 ∧ -100 < s.position then
    ({ s with ask_id := s.next_id, ask_price := new_ask_price, next_id := s.next_id + 1,
              asks := s.asks ++ [s.next_id], liveAsks := s.liveAsks ++ [s.next_id] },
     [if s.position = 100 then
        Action.insert s.next_id Side.SELL (new_ask_price - 100) 175 Lifespan.GOOD_FOR_DAY
      else
        Action.insert s.next_id Side.SELL new_ask_price (min 50 (100 + s.position))
          Lifespan.GOOD_FOR_DAY])
  else (s, [])

/-- Order-management part of `on_order_book_update_message` (lines 186-221):
cancels are issued first, then the bid insert block, then the ask insert
block.  The target prices are taken as inputs here; the quote model computing
them is embedded separately above. -/
def on_order_book_update (s : TraderState) (new_bid_price new_ask_price lastBid lastAsk : ℤ) :
    TraderState × List Action :=
  let p := bidInsertPhase s new_bid_price
  let q := askInsertPhase p.1 new_ask_price
  (q.1, cancelPhase s new_bid_price new_ask_price lastBid lastAsk ++ p.2 ++ q.2)

/-- `on_order_status_message` (lines 250-278).  On a terminal acknowledgement
(`remaining_volume == 0`) the corresponding local id is reset to 0; note the
source's ask branch of the partial-fill terminal case discards from `bids`
(line 278), which is kept faithfully.  Terminal acknowledgements retire the
order at the venue, so the ghost live lists drop the id. -/
def on_order_status (s : TraderState) (id : Nat) (fill_volume remaining_volume : ℤ) :
    TraderState :=
  let s' :=
    if remaining_volume = 0 ∧ fill_volume = 0 then
      if id = s.bid_id then { s with bid_id := 0, bids := s.bids.erase id }
      else if id = s.ask_id then { s with ask_id := 0, asks := s.asks.erase id }
      else s
    else if remaining_volume = 0 then
      if id = s.bid_id then { s with bid_id := 0, bids := s.bids.erase id }
      else if id = s.ask_id then { s with ask_id := 0, bids := s.bids.erase id }
      else s
    else s
  if remaining_volume = 0 then
    { s' with liveBids := s'.liveBids.erase id, liveAsks := s'.liveAsks.erase id }
  else s'

/-- `on_order_filled_message` (lines 229-247): a fill on a tracked bid raises
the position and hedges with a `Side.ASK` order at `MIN_BID_NEAREST_TICK`
(also cancelling the filled order); a fill on a tracked ask lowers the
position and hedges with a `Side.BID` order at `MAX_ASK_NEAREST_TICK`. -/
def on_order_filled (MINIMUM_BID MAXIMUM_ASK : ℤ) (s : TraderState) (id : Nat) (volume : ℤ) :
    TraderState × List Action :=
  if id ∈ s.bids then
    ({ s with position := s.position + volume, next_id := s.next_id + 1 },
     [Action.hedge s.next_id Side.ASK (MIN_BID_NEAREST_TICK MINIMUM_BID) volume,
      Action.cancel id])
  else if id ∈ s.asks then
    ({ s with position := s.position - volume, next_id := s.next_id + 1 },
     [Action.hedge s.next_id Side.BID (MAX_ASK_NEAREST_TICK MAXIMUM_ASK) volume])
  else (s, [])

/-- Inbound events driving the quote lifecycle. -/
inductive Event where
  | book (new_bid_price new_ask_price lastBid lastAsk : ℤ)
  | status (id : Nat) (fill_volume remaining_volume : ℤ)
  | fill (id : Nat) (volume : ℤ)

/-- One event-handler dispatch. -/
def step (MINIMUM_BID MAXIMUM_ASK : ℤ) (s : TraderState) : Event → TraderState × List Action
  | .book nb na lb la => on_order_book_update s nb na lb la
  | .status id f r => (on_order_status s id f r, [])
  | .fill id v => on_order_filled MINIMUM_BID MAXIMUM_ASK s id v

/-- State after processing a sequence of events from the initial state. -/
def run (MINIMUM_BID MAXIMUM_ASK : ℤ) (evs : List Event) : TraderState :=
  evs.foldl (fun s e => (step MINIMUM_BID MAXIMUM_ASK s e).1) initialState

/-- `VolatilityIndicator` of autotrader_aventador.py (lines 320-337): a deque
of mid prices (`maxlen = BUFFER_VOLATILITY_SIZE = 200`) plus the current sigma
(initially `SIGMA = 0.25`); `min_size = MIN_TO_COMPUTE_VOLATILITY = 150`. -/
structure VolatilityIndicator where
  buffer : List ℚ
  sigma : ℝ

/-- `add_sample` appends unconditionally (line 327-328). -/
def add_sample (s : VolatilityIndicator) (sample : ℚ) : VolatilityIndicator :=
  { s with buffer := dequeAppend 200 s.buffer sample }

/-- `calculation` (lines 330-333): when `len(self.buffer) > self.min_size` the
computation reads `self.size`, an attribute never assigned anywhere in the
class or its callers, so the call raises `AttributeError` (modelled as `none`);
otherwise it leaves the state unchanged. -/
def calculation (s : VolatilityIndicator) : Option VolatilityIndicator :=
  if 150 < s.buffer.length then none else some s

/-- `current_volatility` (lines 335-337): runs `calculation` then returns
`self.sigma`; propagates the `AttributeError`. -/
def current_volatility (s : VolatilityIndicator) : Option (ℝ × VolatilityIndicator) :=
  (calculation s).map (fun s' => (s'.sigma, s'))

/-- States of the aventador `VolatilityIndicator` reachable from `__init__`
by `add_sample` and successful `current_volatility`/`calculation` calls. -/
inductive Reach : VolatilityIndicator → Prop where
  | init : Reach ⟨[], 0.25⟩
  | add (s : VolatilityIndicator) (x : ℚ) : Reach s → Reach (add_sample s x)
  | vol (s s' : VolatilityIndicator) : Reach s → calculation s = some s' → Reach s'

/-- A quote side is well formed when the ghost list of venue-live orders
matches the local order id: no live order while the side is idle
(`bid_id = 0`), exactly the tracked order otherwise. -/
def GoodSide (id : Nat) (live : List Nat) : Prop :=
  (id = 0 → live = []) ∧ (id ≠ 0 → live = [id])

/-- Lifecycle invariant of the aventador trader: the order-id counter starts
at 1 and stays above every issued id, the two sides never share a nonzero id,
and each side holds at most the one tracked live order. -/
structure Inv (s : TraderState) : Prop where
  next_pos : 1 ≤ s.next_id
  bid_lt : s.bid_id < s.next_id
  ask_lt : s.ask_id < s.next_id
  distinct : s.bid_id = s.ask_id → s.bid_id = 0
  bid_side : GoodSide s.bid_id s.liveBids
  ask_side : GoodSide s.ask_id s.liveAsks

end Aventador

namespace V1

/-- `gamma_sigma2_T_minus_t = self.gamma * self.sigma**2 * T_minus_t`
(autotrader_V1.py line 147). -/
noncomputable def gamma_sigma2_T_minus_t (gamma sigma t : ℝ) : ℝ :=
  gamma * sigma ^ 2 * t

/-- `reservation_price = mid_price - position * gamma_sigma2_T_minus_t *
TICK_SIZE_IN_CENTS` (autotrader_V1.py line 148). -/
noncomputable def reservation_price (mid position gamma sigma t : ℝ) : ℝ :=
  mid - position * gamma_sigma2_T_minus_t gamma sigma t * 100

/-- `optimal_spread = gamma_sigma2_T_minus_t + TICK_SIZE_IN_CENTS * 2 *
np.log(1 + self.gamma/self.kappa)/self.gamma` (autotrader_V1.py line 149);
only the logarithmic term is multiplied by the tick size. -/
noncomputable def optimal_spread (gamma sigma kappa t : ℝ) : ℝ :=
  gamma_sigma2_T_minus_t gamma sigma t + 100 * 2 * Real.log (1 + gamma / kappa) / gamma

/-- `VolatilityIndicator` of autotrader_V1.py (lines 327-344): a deque of mid
prices (`maxlen = BUFFER_VOLATILITY_SIZE = 200`) plus the current volatility
(initially 0.25); `min_size = MIN_TO_COMPUTE_VOLATILITY = 20`. -/
structure VolatilityIndicator where
  buffer : List ℚ
  volatility : ℝ

/-- `add_sample` (line 334-335): zero samples are ignored. -/
def add_sample (s : VolatilityIndicator) (sample : ℚ) : VolatilityIndicator :=
  if sample ≠ 0 then { s with buffer := dequeAppend 200 s.buffer sample } else s

/-- The vector `np.log(np.array(buffer)[:-1]) - np.log(np.array(buffer)[1:])`:
log-price differences of adjacent buffered prices, i.e. the (negated)
log-returns derived from the price buffer. -/
noncomputable def logReturns (l : List ℚ) : List ℝ :=
  List.zipWith (fun (a b : ℚ) => Real.log (a : ℝ) - Real.log (b : ℝ)) l l.tail

/-- The radicand of `calculation` (autotrader_V1.py line 340):
`np.sum(np.square(<log diffs>)) / (len(self.buffer) - 1)`. -/
noncomputable def varianceTerm (l : List ℚ) : ℝ :=
  ((logReturns l).map (fun r => r ^ 2)).sum / ((l.length : ℝ) - 1)

/-- `calculation` (lines 337-340): recompute the volatility only when
`len(self.buffer) > self.min_size`. -/
noncomputable def calculation (s : VolatilityIndicator) : VolatilityIndicator :=
  if 20 < s.buffer.length then
    { s with volatility := Real.sqrt (varianceTerm s.buffer) }
  else s

/-- `current_vol` (lines 342-344): runs `calculation`, returns the stored
volatility; the pair also exposes the post-call state. -/
noncomputable def current_vol (s : VolatilityIndicator) : ℝ × VolatilityIndicator :=
  ((calculation s).volatility, calculation s)

/-- States of the V1 `VolatilityIndicator` reachable from `__init__` by
`add_sample` and `current_vol`/`calculation` calls. -/
inductive Reach : VolatilityIndicator → Prop where
  | init : Reach ⟨[], 0.25⟩
  | add (s : VolatilityIndicator) (x : ℚ) : Reach s → Reach (add_sample s x)
  | vol (s : VolatilityIndicator) : Reach s → Reach (calculation s)

/-- One entry of the `OutsandingOrders.orders` dictionary:
`[time, side, price, volume]`. -/
structure OrderRec where
  time : ℚ
  side : Side
  price : ℤ
  volume : ℤ
deriving DecidableEq

/-- `OutsandingOrders` of autotrader_V1.py (lines 347-428): theoretical and
real (confirmed) positions, the active-order count, and the order dictionary
(keyed association list). -/
structure OutsandingOrders where
  theorical_position : ℤ
  real_position : ℤ
  active_orders : ℤ
  orders : List (Nat × OrderRec)
deriving DecidableEq

/-- Dictionary lookup by order id. -/
def lookupOrder (id : Nat) : List (Nat × OrderRec) → Option OrderRec
  | [] => none
  | (k, r) :: rest => if k = id then some r else lookupOrder id rest

/-- Dictionary deletion by order id (`del self.orders[...]`). -/
def removeOrder (id : Nat) : List (Nat × OrderRec) → List (Nat × OrderRec)
  | [] => []
  | (k, r) :: rest => if k = id then rest else (k, r) :: removeOrder id rest

/-- `add_order` (lines 355-363): adjusts the theoretical position by the signed
volume, stores `[time, side, price, volume]` under the id, and increments the
active-order count. -/
def add_order (s : OutsandingOrders) (time : ℚ) (order_id : Nat) (side : Side)
    (price : ℤ) (volume : ℤ) : OutsandingOrders :=
  { theorical_position :=
      if side = Side.BID then s.theorical_position + volume
      else s.theorical_position - volume,
    real_position := s.real_position,
    active_orders := s.active_orders + 1,
    orders := (order_id, ⟨time, side, price, volume⟩) :: removeOrder order_id s.orders }

/-- `is_filled` (lines 365-370): adjusts the real (confirmed) position by the
signed fill volume; accessing a missing id raises in Python (`none`). -/
def is_filled (s : OutsandingOrders) (order_id : Nat) (volume : ℤ) :
    Option OutsandingOrders :=
  match lookupOrder order_id s.orders with
  | none => none
  | some r =>
    some { s with real_position :=
            if r.side = Side.BID then s.real_position + volume
            else s.real_position - volume }

/-- `update_order` (lines 372-390).  `fill == 0 ∧ remaining == 0` is the
reject/unfilled-cancel branch: it decrements the active-order count, rolls the
stored signed volume back out of the theoretical position and deletes the
record; `fill == 0` alone is a no-op; `remaining == 0` retires a fully traded
order; otherwise the stored volume becomes the remaining volume.  Branches
that access a missing id raise in Python (`none`). -/
def update_order (s : OutsandingOrders) (client_order_id : Nat)
    (fill_volume remaining_volume : ℤ) : Option OutsandingOrders :=
  if fill_volume = 0 ∧ remaining_volume = 0 then
    match lookupOrder client_order_id s.orders with
    | none => none
    | some r =>
      some { theorical_position :=
               if r.side = Side.BID then s.theorical_position - r.volume
               else s.theorical_position + r.volume,
             real_position := s.real_position,
             active_orders := s.active_orders - 1,
             orders := removeOrder client_order_id s.orders }
  else if fill_volume = 0 then some s
  else if remaining_volume = 0 then
    match lookupOrder client_order_id s.orders with
    | none => none
    | some _ =>
      some { s with active_orders := s.active_orders - 1,
                    orders := removeOrder client_order_id s.orders }
  else
    match lookupOrder client_order_id s.orders with
    | none => none
    | some r =>
      some { s with orders :=
              (client_order_id, { r with volume := remaining_volume }) ::
                removeOrder client_order_id s.orders }

end V1

namespace Allevaneda3

/-- Trader state of autotrader_Allevaneda_3.py (same fields as the aventador
variant; `liveBids`/`liveAsks` are the same ghost instrumentation: submitted
orders whose terminal acknowledgement has not yet been processed). -/
structure TraderState where
  bid_id : Nat
  bid_price : ℤ
  ask_id : Nat
  ask_price : ℤ
  position : ℤ
  next_id : Nat
  bids : List Nat
  asks : List Nat
  liveBids : List Nat
  liveAsks : List Nat
deriving DecidableEq

/-- Initial state from `__init__`. -/
def initialState : TraderState := ⟨0, 0, 0, 0, 0, 1, [], [], [], []⟩

/-- Bid cancel block (autotrader_Allevaneda_3.py lines 131-133): the cancel is
sent and `self.bid_id` is immediately reset to 0, without waiting for the
terminal acknowledgement. -/
def bidCancelPhase (s : TraderState) (new_bid_price : ℤ) : TraderState × List Action :=
  if s.bid_id ≠ 0 ∧ new_bid_price ≠ s.bid_price ∧ new_bid_price ≠ 0 then
    ({ s with bid_id := 0 }, [Action.cancel s.bid_id])
  else (s, [])

/-- Ask cancel block (lines 134-136). -/
def askCancelPhase (s : TraderState) (new_ask_price : ℤ) : TraderState × List Action :=
  if s.ask_id ≠ 0 ∧ new_ask_price ≠ s.ask_price ∧ new_ask_price ≠ 0 then
    ({ s with ask_id := 0 }, [Action.cancel s.ask_id])
  else (s, [])

/-- Bid insert block (lines 138-142). -/
def bidInsertPhase (s : TraderState) (new_bid_price : ℤ) : TraderState × List Action :=
  if s.bid_id = 0 ∧ new_bid_price ≠ 0 ∧ s.position < 100 then
    ({ s with bid_id := s.next_id, bid_price := new_bid_price, next_id := s.next_id + 1,
              bids := s.bids ++ [s.next_id], liveBids := s.liveBids ++ [s.next_id] },
     [Action.insert s.next_id Side.BUY new_bid_price (min 10 (100 - s.position))
        Lifespan.FILL_AND_KILL])
  else (s, [])

/-- Ask insert block (lines 144-148). -/
def askInsertPhase (s : TraderState) (new_ask_price : ℤ) : TraderState × List Action :=
  if s.ask_id = 0 ∧ new_ask_price ≠ 0 ∧ -100 < s.position then
    ({ s with ask_id := s.next_id, ask_price := new_ask_price, next_id := s.next_id + 1,
              asks := s.asks ++ [s.next_id], liveAsks := s.liveAsks ++ [s.next_id] },
     [Action.insert s.next_id Side.SELL new_ask_price (min 10 (100 + s.position))
        Lifespan.FILL_AND_KILL])
  else (s, [])

/-- Order-management part of `on_order_book_update_message`
(autotrader_Allevaneda_3.py lines 131-148): cancel blocks run first (each
resetting its local id), then the insert blocks run in the same update. -/
def on_order_book_update (s : TraderState) (new_bid_price new_ask_price : ℤ) :
    TraderState × List Action :=
  let c1 := bidCancelPhase s new_bid_price
  let c2 := askCancelPhase c1.1 new_ask_price
  let i1 := bidInsertPhase c2.1 new_bid_price
  let i2 := askInsertPhase i1.1 new_ask_price
  (i2.1, c1.2 ++ c2.2 ++ i1.2 ++ i2.2)

/-- `on_order_status_message` (lines 165-185): on `remaining_volume == 0` the
matching local id is reset and the id is discarded from both sets; the ghost
live lists drop the id. -/
def on_order_status (s : TraderState) (id : Nat) (fill_volume remaining_volume : ℤ) :
    TraderState :=
  if remaining_volume = 0 then
    let s' :=
      if id = s.bid_id then { s with bid_id := 0 }
      else if id = s.ask_id then { s with ask_id := 0 }
      else s
    { s' with bids := s'.bids.erase id, asks := s'.asks.erase id,
              liveBids := s'.liveBids.erase id, liveAsks := s'.liveAsks.erase id }
  else s

/-- `on_order_filled_message` (autotrader_Allevaneda_3.py lines 150-163): a
fill on a tracked bid raises the position and hedges with a `Side.ASK` order
at `MIN_BID_NEAREST_TICK`; a fill on a tracked ask lowers the position and
hedges with a `Side.BID` order at `MAX_ASK_NEAREST_TICK`. -/
def on_order_filled (MINIMUM_BID MAXIMUM_ASK : ℤ) (s : TraderState) (id : Nat)
    (volume : ℤ) : TraderState × List Action :=
  if id ∈ s.bids then
    ({ s with position := s.position + volume, next_id := s.next_id + 1 },
     [Action.hedge s.next_id Side.ASK (MIN_BID_NEAREST_TICK MINIMUM_BID) volume])
  else if id ∈ s.asks then
    ({ s with position := s.position - volume, next_id := s.next_id + 1 },
     [Action.hedge s.next_id Side.BID (MAX_ASK_NEAREST_TICK MAXIMUM_ASK) volume])
  else (s, [])

end Allevaneda3

namespace Test3

/-- `Volatility` of autotrader_Allevaneda_test3.py (lines 284-297): a deque of
log-returns (the caller appends `np.log(mid[-1]/mid[-2])` directly, line 119)
plus the current volatility. -/
structure Volatility where
  size : Nat
  buffer : List ℝ
  vol : ℝ

/-- `calculation` (lines 291-293): `np.sqrt(252 * 24 * 3600 * 4 *
np.sum(np.square(self.buffer)) / (len(self.buffer) - 1))` — the sum of squared
buffered returns divided by one less than the number of buffered returns,
annualized. -/
noncomputable def calculation (s : Volatility) : Volatility :=
  { s with vol :=
      Real.sqrt (252 * 24 * 3600 * 4 * ((s.buffer.map (fun r => r ^ 2)).sum) /
        ((s.buffer.length : ℝ) - 1)) }

/-- `current_vol` (lines 295-297). -/
noncomputable def current_vol (s : Volatility) : ℝ × Volatility :=
  ((calculation s).vol, calculation s)

end Test3

section TickLemmas

variable {α : Type} [LinearOrderedField α] [FloorRing α]

/-- Flooring to a 100-cent tick never goes above the raw value. -/
theorem tick_floor_le (x : α) : ((⌊x / 100⌋ * 100 : ℤ) : α) ≤ x := by
  have h := Int.floor_le (x / 100)
  have h2 : ((⌊x / 100⌋ : α)) * 100 ≤ x / 100 * 100 :=
    mul_le_mul_of_nonneg_right h (by norm_num)
  have h3 : x / 100 * 100 = x := div_mul_cancel₀ x (by norm_num)
  push_cast
  linarith

/-- Flooring to a 100-cent tick loses less than one tick. -/
theorem lt_tick_floor (x : α) : x - 100 < ((⌊x / 100⌋ * 100 : ℤ) : α) := by
  have h := Int.lt_floor_add_one (x / 100)
  have h2 : x / 100 * 100 < ((⌊x / 100⌋ : α) + 1) * 100 :=
    mul_lt_mul_of_pos_right h (by norm_num)
  have h3 : x / 100 * 100 = x := div_mul_cancel₀ x (by norm_num)
  push_cast
  linarith

end TickLemmas

/-- C3 counterexample: at reservation price 10000 and optimal spread 150 the
source computes the ask by flooring (`//`), giving 10000, while the claimed
ceiling rounding gives 10100; consequently the quoted spread 100 is strictly
narrower than the model spread 150 — rounding does narrow the spread. -/
theorem claim3_counterexample :
    Aventador.ask_avellaneda (10000 : ℚ) 150 = 10000 ∧
    Spec.ask_ceiled (10000 : ℚ) 150 = 10100 ∧
    (Aventador.ask_avellaneda (10000 : ℚ) 150 : ℚ) -
      (Aventador.bid_avellaneda (10000 : ℚ) 150 : ℚ) < 150 := by
  have hf : (⌊((10000 : ℚ) + 150 / 2) / 100⌋ : ℤ) = 100 := by norm_num
  have hb : (⌊((10000 : ℚ) - 150 / 2) / 100⌋ : ℤ) = 99 := by norm_num
  have hc : (⌈((10000 : ℚ) + 150 / 2) / 100⌉ : ℤ) = 101 := by
    rw [Int.ceil_eq_iff] <;> norm_num
  refine ⟨?_, ?_, ?_⟩
  · unfold Aventador.ask_avellaneda
    rw [hf]
    norm_num
  · unfold Spec.ask_ceiled
    rw [hc]
    norm_num
  · unfold Aventador.ask_avellaneda Aventador.bid_avellaneda
    rw [hf, hb]
    norm_num

/-- C3 (amended): the raw bid `r − δ/2` is floored to the tick, but the raw ask
`r + δ/2` is floored as well (not ceiled); both final values sit within one
tick below their raw values, so tick rounding can narrow the quoted spread,
though by less than one tick: `ask − bid > δ − 100`. -/
theorem claim3_theorem (r δ : ℚ) :
    (Aventador.bid_avellaneda r δ : ℚ) ≤ r - δ / 2 ∧
    (Aventador.ask_avellaneda r δ : ℚ) ≤ r + δ / 2 ∧
    r + δ / 2 - 100 < (Aventador.ask_avellaneda r δ : ℚ) ∧
    δ - 100 < (Aventador.ask_avellaneda r δ : ℚ) - (Aventador.bid_avellaneda r δ : ℚ) := by
  have h1 := tick_floor_le (r - δ / 2)
  have h2 := tick_floor_le (r + δ / 2)
  have h3 := lt_tick_floor (r + δ / 2)
  unfold Aventador.bid_avellaneda Aventador.ask_avellaneda
  exact ⟨h1, h2, by linarith, by linarith⟩

/-- C4 (amended): in both cited variants the reservation price equals the
spec's `m − q·γ·σ²·τ·tick` (so `q = 0` yields the mid price, e.g. 10000), and
the aventador optimal spread equals the spec's `(γσ²τ + (2/γ)ln(1+γ/κ))·tick`;
the V1 variant scales only the logarithmic term by the tick size, so its
spread equals the spec formula minus `99·γσ²τ`. -/
theorem claim4_theorem (m q gamma sigma kappa tau : ℝ) :
    Aventador.reservation_price m q gamma sigma tau =
      Spec.reservationPrice m q gamma sigma tau ∧
    V1.reservation_price m q gamma sigma tau =
      Spec.reservationPrice m q gamma sigma tau ∧
    Spec.reservationPrice m 0 gamma sigma tau = m ∧
    Aventador.reservation_price 10000 0 gamma sigma tau = 10000 ∧
    Aventador.optimal_spread gamma sigma kappa tau =
      Spec.optimalSpreadTicks gamma sigma kappa tau ∧
    V1.optimal_spread gamma sigma kappa tau =
      Spec.optimalSpreadTicks gamma sigma kappa tau - 99 * (gamma * sigma ^ 2 * tau) := by
  unfold Aventador.reservation_price V1.reservation_price Spec.reservationPrice
    Aventador.optimal_spread V1.optimal_spread Spec.optimalSpreadTicks
    V1.gamma_sigma2_T_minus_t
  exact ⟨by ring, by ring, by ring, by ring, by ring, by ring⟩

/-- C4 counterexample: at `γ = σ = κ = τ = 1` the V1 spread is
`1 + 200·ln 2` while the claimed fully tick-scaled formula gives
`100 + 200·ln 2`; they differ, so the V1 spread is not the spec formula
"scaled to price ticks". -/
theorem claim4_counterexample :
    V1.optimal_spread 1 1 1 1 ≠ Spec.optimalSpreadTicks 1 1 1 1 := by
  unfold V1.optimal_spread Spec.optimalSpreadTicks V1.gamma_sigma2_T_minus_t
  intro h
  ring_nf at h
  nlinarith [h]

/-- C7 counterexample: with mid price 5050, reservation price 5050 and spread
81, the final ask is 5000, which is strictly below `mid + floor/2 = 5060.1`:
the published ask can sit below the claimed floor-spread bound because the
bound itself is floored to the tick before the comparison. -/
theorem claim7_counterexample :
    Aventador.new_ask_price_of (5050 : ℚ) (Aventador.ask_avellaneda (5050 : ℚ) 81) = 5000 ∧
    (Aventador.new_ask_price_of (5050 : ℚ) (Aventador.ask_avellaneda (5050 : ℚ) 81) : ℚ) <
      5050 + Aventador.min_spread (5050 : ℚ) / 2 := by
  have ha : Aventador.ask_avellaneda (5050 : ℚ) 81 = 5000 := by
    unfold Aventador.ask_avellaneda
    norm_num
  have hm : Aventador.min_ask_price (5050 : ℚ) = 5000 := by
    unfold Aventador.min_ask_price Aventador.min_spread
    norm_num
  have hfin : Aventador.new_ask_price_of (5050 : ℚ) (Aventador.ask_avellaneda (5050 : ℚ) 81) = 5000 := by
    unfold Aventador.new_ask_price_of
    rw [ha, hm]
    exact max_self 5000
  refine ⟨hfin, ?_⟩
  rw [hfin]
  unfold Aventador.min_spread
  norm_num

/-- C7 (amended): the clamps are applied to tick-floored bounds, so the final
bid `min(max_bid_price, raw bid)` never exceeds `mid − floor/2`, while the
final ask `max(min_ask_price, raw ask)` is only guaranteed to stay above
`mid + floor/2 − tick`; it can dip below `mid + floor/2` by up to one tick. -/
theorem claim7_theorem (mid r δ : ℚ) :
    (Aventador.new_bid_price_of mid (Aventador.bid_avellaneda r δ) : ℚ) ≤
      mid - Aventador.min_spread mid / 2 ∧
    mid + Aventador.min_spread mid / 2 - 100 <
      (Aventador.new_ask_price_of mid (Aventador.ask_avellaneda r δ) : ℚ) := by
  constructor
  · have h1 : Aventador.new_bid_price_of mid (Aventador.bid_avellaneda r δ) ≤
        Aventador.max_bid_price mid := min_le_left _ _
    have h1' : ((Aventador.new_bid_price_of mid (Aventador.bid_avellaneda r δ) : ℤ) : ℚ) ≤
        ((Aventador.max_bid_price mid : ℤ) : ℚ) := by exact_mod_cast h1
    have h2 := tick_floor_le (mid - Aventador.min_spread mid / 2)
    unfold Aventador.max_bid_price at h1' h2
    linarith
  · have h1 : Aventador.min_ask_price mid ≤
        Aventador.new_ask_price_of mid (Aventador.ask_avellaneda r δ) := le_max_left _ _
    have h1' : ((Aventador.min_ask_price mid : ℤ) : ℚ) ≤
        ((Aventador.new_ask_price_of mid (Aventador.ask_avellaneda r δ) : ℤ) : ℚ) := by
      exact_mod_cast h1
    have h2 := lt_tick_floor (mid + Aventador.min_spread mid / 2)
    unfold Aventador.min_ask_price at h1' h2
    linarith

/-- C6 (amended): for every mid price `≥ 0`, inventory, volatility, `γ > 0`,
`κ > 0` and `τ ∈ [0,1]`, the final aventador quotes satisfy `bid ≤ ask` (not
always strictly) and both are integer multiples of the 100-cent tick. -/
theorem claim6_theorem (mid q gamma sigma kappa tau : ℝ) (hmid : 0 ≤ mid)
    (hg : 0 < gamma) (hk : 0 < kappa) (ht0 : 0 ≤ tau) (ht1 : tau ≤ 1) :
    Aventador.new_bid_price mid q gamma sigma kappa tau ≤
      Aventador.new_ask_price mid q gamma sigma kappa tau ∧
    (100 : ℤ) ∣ Aventador.new_bid_price mid q gamma sigma kappa tau ∧
    (100 : ℤ) ∣ Aventador.new_ask_price mid q gamma sigma kappa tau := by
  have hms : 0 ≤ Aventador.min_spread mid := by
    unfold Aventador.min_spread
    have h0 : 0 ≤ mid / 100 := div_nonneg hmid (by norm_num)
    nlinarith
  have h1 : Aventador.max_bid_price mid ≤ Aventador.min_ask_price mid := by
    unfold Aventador.max_bid_price Aventador.min_ask_price
    have h2 : (mid - Aventador.min_spread mid / 2) / 100 ≤
        (mid + Aventador.min_spread mid / 2) / 100 := by linarith
    exact mul_le_mul_of_nonneg_right (Int.floor_le_floor h2) (by norm_num)
  refine ⟨?_, ?_, ?_⟩
  · unfold Aventador.new_bid_price Aventador.new_ask_price
      Aventador.new_bid_price_of Aventador.new_ask_price_of
    exact le_trans (min_le_left _ _) (le_trans h1 (le_max_left _ _))
  · unfold Aventador.new_bid_price Aventador.new_bid_price_of
    rcases min_choice (Aventador.max_bid_price mid)
      (Aventador.bid_avellaneda
        (Aventador.reservation_price mid q gamma sigma tau)
        (Aventador.optimal_spread gamma sigma kappa tau)) with h | h <;> rw [h]
    · unfold Aventador.max_bid_price
      exact dvd_mul_left 100 _
    · unfold Aventador.bid_avellaneda
      exact dvd_mul_left 100 _
  · unfold Aventador.new_ask_price Aventador.new_ask_price_of
    rcases max_choice (Aventador.min_ask_price mid)
      (Aventador.ask_avellaneda
        (Aventador.reservation_price mid q gamma sigma tau)
        (Aventador.optimal_spread gamma sigma kappa tau)) with h | h <;> rw [h]
    · unfold Aventador.min_ask_price
      exact dvd_mul_left 100 _
    · unfold Aventador.ask_avellaneda
      exact dvd_mul_left 100 _

/-- C6 witness: the amended bound at mid 10000, `q = 0`, `γ = σ = 1`, `κ = 2`,
`τ = 1`. -/
theorem claim6_witness :
    (0 : ℝ) ≤ 10000 ∧
    (Aventador.new_bid_price 10000 0 1 1 2 1 ≤ Aventador.new_ask_price 10000 0 1 1 2 1 ∧
     (100 : ℤ) ∣ Aventador.new_bid_price 10000 0 1 1 2 1 ∧
     (100 : ℤ) ∣ Aventador.new_ask_price 10000 0 1 1 2 1) :=
  ⟨by norm_num,
   claim6_theorem 10000 0 1 1 2 1 (by norm_num) (by norm_num) (by norm_num)
     (by norm_num) (by norm_num)⟩

/-- C6 counterexample: with mid price 5050 (a half-tick mid), `q = 0`,
`γ = 1`, `σ = 1`, `κ = 2` and `τ = 0` — all within the claimed ranges — the
pipeline floors both `50.5 − ln(3/2)` and `50.5 + ln(3/2)` to tick 50, and
both clamp bounds also floor to 5000, so the final bid and ask are both
exactly 5000: `bid < ask` fails. -/
theorem claim6_counterexample :
    Aventador.new_bid_price 5050 0 1 1 2 0 = 5000 ∧
    Aventador.new_ask_price 5050 0 1 1 2 0 = 5000 ∧
    ¬(Aventador.new_bid_price 5050 0 1 1 2 0 < Aventador.new_ask_price 5050 0 1 1 2 0) := by
  have hL0 : 0 < Real.log (1 + 1 / 2) := Real.log_pos (by norm_num)
  have hL1 : Real.log (1 + 1 / 2) < 1 / 2 := by
    have h := Real.log_lt_sub_one_of_pos (show (0 : ℝ) < 1 + 1 / 2 by norm_num)
      (show (1 : ℝ) + 1 / 2 ≠ 1 by norm_num)
    linarith
  have hr : Aventador.reservation_price 5050 0 1 1 0 = 5050 := by
    unfold Aventador.reservation_price
    ring
  have hs : Aventador.optimal_spread 1 1 2 0 = 200 * Real.log (1 + 1 / 2) := by
    unfold Aventador.optimal_spread
    ring
  have hbav : Aventador.bid_avellaneda (5050 : ℝ) (200 * Real.log (1 + 1 / 2)) = 5000 := by
    unfold Aventador.bid_avellaneda
    have harg : ((5050 : ℝ) - 200 * Real.log (1 + 1 / 2) / 2) / 100 =
        101 / 2 - Real.log (1 + 1 / 2) := by ring
    rw [harg]
    have hfl : (⌊(101 / 2 : ℝ) - Real.log (1 + 1 / 2)⌋ : ℤ) = 50 := by
      rw [Int.floor_eq_iff]
      push_cast
      constructor <;> linarith
    rw [hfl]
    norm_num
  have haav : Aventador.ask_avellaneda (5050 : ℝ) (200 * Real.log (1 + 1 / 2)) = 5000 := by
    unfold Aventador.ask_avellaneda
    have harg : ((5050 : ℝ) + 200 * Real.log (1 + 1 / 2) / 2) / 100 =
        101 / 2 + Real.log (1 + 1 / 2) := by ring
    rw [harg]
    have hfl : (⌊(101 / 2 : ℝ) + Real.log (1 + 1 / 2)⌋ : ℤ) = 50 := by
      rw [Int.floor_eq_iff]
      push_cast
      constructor <;> linarith
    rw [hfl]
    norm_num
  have hmaxb : Aventador.max_bid_price (5050 : ℝ) = 5000 := by
    unfold Aventador.max_bid_price Aventador.min_spread
    norm_num
  have hmina : Aventador.min_ask_price (5050 : ℝ) = 5000 := by
    unfold Aventador.min_ask_price Aventador.min_spread
    norm_num
  have hbid : Aventador.new_bid_price 5050 0 1 1 2 0 = 5000 := by
    unfold Aventador.new_bid_price Aventador.new_bid_price_of
    rw [hr, hs, hbav, hmaxb]
    exact min_self 5000
  have hask : Aventador.new_ask_price 5050 0 1 1 2 0 = 5000 := by
    unfold Aventador.new_ask_price Aventador.new_ask_price_of
    rw [hr, hs, haav, hmina]
    exact max_self 5000
  exact ⟨hbid, hask, by rw [hbid, hask]; omega⟩

theorem goodSide_length (id : Nat) (live : List Nat) (h : Aventador.GoodSide id live) :
    live.length ≤ 1 := by
  by_cases hz : id = 0
  · rw [h.1 hz]
    simp
  · rw [h.2 hz]
    simp

theorem goodSide_erase_ne (id bid : Nat) (live : List Nat)
    (h : Aventador.GoodSide bid live) (hne : id ≠ bid) :
    Aventador.GoodSide bid (live.erase id) := by
  obtain ⟨h0, h1⟩ := h
  by_cases hb : bid = 0
  · subst hb
    rw [h0 rfl]
    exact ⟨fun _ => rfl, fun hc => absurd rfl hc⟩
  · rw [h1 hb, List.erase_of_not_mem (by simpa using hne)]
    exact ⟨fun hc => absurd hc hb, fun _ => rfl⟩

theorem goodSide_erase_self (bid : Nat) (live : List Nat)
    (h : Aventador.GoodSide bid live) :
    Aventador.GoodSide 0 (live.erase bid) := by
  obtain ⟨h0, h1⟩ := h
  by_cases hb : bid = 0
  · subst hb
    rw [h0 rfl]
    exact ⟨fun _ => rfl, fun hc => absurd rfl hc⟩
  · rw [h1 hb, List.erase_cons_head]
    exact ⟨fun _ => rfl, fun hc => absurd rfl hc⟩

theorem inv_initial : Aventador.Inv Aventador.initialState :=
  ⟨by decide, by decide, by decide, fun _ => rfl,
   ⟨fun _ => rfl, fun hc => absurd rfl hc⟩, ⟨fun _ => rfl, fun hc => absurd rfl hc⟩⟩

theorem bidInsertPhase_fst (s : Aventador.TraderState) (nb : ℤ) :
    (Aventador.bidInsertPhase s nb).1 =
      if s.bid_id = 0 ∧ nb ≠ 0 ∧ s.position < 100 then
        { s with bid_id := s.next_id, bid_price := nb, next_id := s.next_id + 1,
                 bids := s.bids ++ [s.next_id], liveBids := s.liveBids ++ [s.next_id] }
      else s := by
  unfold Aventador.bidInsertPhase
  split_ifs <;> rfl

theorem askInsertPhase_fst (s : Aventador.TraderState) (na : ℤ) :
    (Aventador.askInsertPhase s na).1 =
      if s.ask_id = 0 ∧ na ≠ 0 ∧ -100 < s.position then
        { s with ask_id := s.next_id, ask_price := na, next_id := s.next_id + 1,
                 asks := s.asks ++ [s.next_id], liveAsks := s.liveAsks ++ [s.next_id] }
      else s := by
  unfold Aventador.askInsertPhase
  split_ifs <;> rfl

theorem inv_bidInsertPhase (s : Aventador.TraderState) (nb : ℤ)
    (h : Aventador.Inv s) : Aventador.Inv (Aventador.bidInsertPhase s nb).1 := by
  obtain ⟨h1, h2, h3, h4, hb, ha⟩ := h
  rw [bidInsertPhase_fst]
  split_ifs with hc
  · refine ⟨?_, ?_, ?_, ?_, ?_, ?_⟩
    · show 1 ≤ s.next_id + 1
      omega
    · show s.next_id < s.next_id + 1
      omega
    · show s.ask_id < s.next_id + 1
      omega
    · show s.next_id = s.ask_id → s.next_id = 0
      intro hz
      omega
    · show Aventador.GoodSide s.next_id (s.liveBids ++ [s.next_id])
      refine ⟨fun hz => absurd hz (by omega), fun _ => ?_⟩
      rw [hb.1 hc.1]
      rfl
    · show Aventador.GoodSide s.ask_id s.liveAsks
      exact ha
  · exact ⟨h1, h2, h3, h4, hb, ha⟩

theorem inv_askInsertPhase (s : Aventador.TraderState) (na : ℤ)
    (h : Aventador.Inv s) : Aventador.Inv (Aventador.askInsertPhase s na).1 := by
  obtain ⟨h1, h2, h3, h4, hb, ha⟩ := h
  rw [askInsertPhase_fst]
  split_ifs with hc
  · refine ⟨?_, ?_, ?_, ?_, ?_, ?_⟩
    · show 1 ≤ s.next_id + 1
      omega
    · show s.bid_id < s.next_id + 1
      omega
    · show s.next_id < s.next_id + 1
      omega
    · show s.bid_id = s.next_id → s.bid_id = 0
      intro hz
      omega
    · show Aventador.GoodSide s.bid_id s.liveBids
      exact hb
    · show Aventador.GoodSide s.next_id (s.liveAsks ++ [s.next_id])
      refine ⟨fun hz => absurd hz (by omega), fun _ => ?_⟩
      rw [ha.1 hc.1]
      rfl
  · exact ⟨h1, h2, h3, h4, hb, ha⟩

theorem inv_on_order_book_update (s : Aventador.TraderState) (nb na lb la : ℤ)
    (h : Aventador.Inv s) :
    Aventador.Inv (Aventador.on_order_book_update s nb na lb la).1 := by
  unfold Aventador.on_order_book_update
  exact inv_askInsertPhase _ _ (inv_bidInsertPhase _ _ h)

theorem status_unchanged (s : Aventador.TraderState) (id : Nat) (f r : ℤ) (hr : r ≠ 0) :
    Aventador.on_order_status s id f r = s := by
  unfold Aventador.on_order_status
  simp [hr]

theorem inv_on_order_status (s : Aventador.TraderState) (id : Nat) (f r : ℤ)
    (h : Aventador.Inv s) : Aventador.Inv (Aventador.on_order_status s id f r) := by
  obtain ⟨h1, h2, h3, h4, hb, ha⟩ := h
  by_cases hr : r = 0
  · have hga : id = s.bid_id → Aventador.GoodSide s.ask_id (s.liveAsks.erase id) := by
      intro hid
      by_cases he : id = s.ask_id
      · have hz : s.bid_id = 0 := h4 (hid ▸ he)
        have hz2 : s.ask_id = 0 := by omega
        rw [hz2] at ha ⊢
        rw [ha.1 rfl]
        exact ⟨fun _ => rfl, fun hc => absurd rfl hc⟩
      · exact goodSide_erase_ne id s.ask_id s.liveAsks ha he
    have hgb : id = s.ask_id → id ≠ s.bid_id →
        Aventador.GoodSide s.bid_id (s.liveBids.erase id) := by
      intro _ hne
      exact goodSide_erase_ne id s.bid_id s.liveBids hb hne
    subst hr
    unfold Aventador.on_order_status
    by_cases hf : f = 0
    · subst hf
      by_cases hib : id = s.bid_id
      · simp only [and_self, if_true, if_pos rfl, if_pos hib]
        refine ⟨?_, ?_, ?_, ?_, ?_, ?_⟩
        · show 1 ≤ s.next_id
          exact h1
        · show 0 < s.next_id
          omega
        · show s.ask_id < s.next_id
          exact h3
        · intro _
          rfl
        · show Aventador.GoodSide 0 (s.liveBids.erase id)
          rw [hib]
          exact goodSide_erase_self s.bid_id s.liveBids hb
        · show Aventador.GoodSide s.ask_id (s.liveAsks.erase id)
          exact hga hib
      · by_cases hia : id = s.ask_id
        · simp only [and_self, if_true, if_pos rfl, if_neg hib, if_pos hia]
          refine ⟨?_, ?_, ?_, ?_, ?_, ?_⟩
          · show 1 ≤ s.next_id
            exact h1
          · show s.bid_id < s.next_id
            exact h2
          · show 0 < s.next_id
            omega
          · intro hz
            exact hz
          · show Aventador.GoodSide s.bid_id (s.liveBids.erase id)
            exact hgb hia hib
          · show Aventador.GoodSide 0 (s.liveAsks.erase id)
            rw [hia]
            exact goodSide_erase_self s.ask_id s.liveAsks ha
        · simp only [and_self, if_true, if_pos rfl, if_neg hib, if_neg hia]
          exact ⟨h1, h2, h3, h4,
            goodSide_erase_ne id s.bid_id s.liveBids hb hib,
            goodSide_erase_ne id s.ask_id s.liveAsks ha hia⟩
    · by_cases hib : id = s.bid_id
      · simp only [if_pos rfl, if_pos hib, hf, and_false, if_false]
        refine ⟨?_, ?_, ?_, ?_, ?_, ?_⟩
        · show 1 ≤ s.next_id
          exact h1
        · show 0 < s.next_id
          omega
        · show s.ask_id < s.next_id
          exact h3
        · intro _
          rfl
        · show Aventador.GoodSide 0 (s.liveBids.erase id)
          rw [hib]
          exact goodSide_erase_self s.bid_id s.liveBids hb
        · show Aventador.GoodSide s.ask_id (s.liveAsks.erase id)
          exact hga hib
      · by_cases hia : id = s.ask_id
        · simp only [if_pos rfl, if_neg hib, if_pos hia, hf, and_false, if_false]
          refine ⟨?_, ?_, ?_, ?_, ?_, ?_⟩
          · show 1 ≤ s.next_id
            exact h1
          · show s.bid_id < s.next_id
            exact h2
          · show 0 < s.next_id
            omega
          · intro hz
            exact hz
          · show Aventador.GoodSide s.bid_id (s.liveBids.erase id)
            exact hgb hia hib
          · show Aventador.GoodSide 0 (s.liveAsks.erase id)
            rw [hia]
            exact goodSide_erase_self s.ask_id s.liveAsks ha
        · simp only [if_pos rfl, if_neg hib, if_neg hia, hf, and_false, if_false]
          exact ⟨h1, h2, h3, h4,
            goodSide_erase_ne id s.bid_id s.liveBids hb hib,
            goodSide_erase_ne id s.ask_id s.liveAsks ha hia⟩
  · rw [status_unchanged s id f r hr]
    exact ⟨h1, h2, h3, h4, hb, ha⟩

theorem inv_on_order_filled (mb ma : ℤ) (s : Aventador.TraderState) (id : Nat) (v : ℤ)
    (h : Aventador.Inv s) :
    Aventador.Inv (Aventador.on_order_filled mb ma s id v).1 := by
  obtain ⟨h1, h2, h3, h4, hb, ha⟩ := h
  unfold Aventador.on_order_filled
  split_ifs with hc1 hc2
  · exact ⟨by show 1 ≤ s.next_id + 1; omega, by show s.bid_id < s.next_id + 1; omega,
      by show s.ask_id < s.next_id + 1; omega, h4, hb, ha⟩
  · exact ⟨by show 1 ≤ s.next_id + 1; omega, by show s.bid_id < s.next_id + 1; omega,
      by show s.ask_id < s.next_id + 1; omega, h4, hb, ha⟩
  · exact ⟨h1, h2, h3, h4, hb, ha⟩

theorem inv_step (mb ma : ℤ) (s : Aventador.TraderState) (e : Aventador.Event)
    (h : Aventador.Inv s) : Aventador.Inv (Aventador.step mb ma s e).1 := by
  cases e with
  | book nb na lb la => exact inv_on_order_book_update s nb na lb la h
  | status id f r => exact inv_on_order_status s id f r h
  | fill id v => exact inv_on_order_filled mb ma s id v h

theorem inv_run (mb ma : ℤ) (evs : List Aventador.Event) :
    Aventador.Inv (Aventador.run mb ma evs) := by
  unfold Aventador.run
  have hgen : ∀ (l : List Aventador.Event) (s : Aventador.TraderState), Aventador.Inv s →
      Aventador.Inv (l.foldl (fun s e => (Aventador.step mb ma s e).1) s) := by
    intro l
    induction l with
    | nil => intro s hs; exact hs
    | cons e rest ih =>
      intro s hs
      exact ih _ (inv_step mb ma s e hs)
  exact hgen evs Aventador.initialState inv_initial

theorem insert_not_mem_cancelPhase (s : Aventador.TraderState) (nb na lb la : ℤ)
    (id : Nat) (side : Side) (p v : ℤ) (ls : Lifespan) :
    Action.insert id side p v ls ∉ Aventador.cancelPhase s nb na lb la := by
  unfold Aventador.cancelPhase
  split_ifs <;> simp

theorem bidInsertPhase_snd_buy (s : Aventador.TraderState) (nb : ℤ) (id : Nat)
    (p v : ℤ) (ls : Lifespan)
    (h : Action.insert id Side.BUY p v ls ∈ (Aventador.bidInsertPhase s nb).2) :
    s.bid_id = 0 := by
  unfold Aventador.bidInsertPhase at h
  split_ifs at h with hc hp
  · exact hc.1
  · exact hc.1
  · simp at h

theorem bidInsertPhase_snd_not_sell (s : Aventador.TraderState) (nb : ℤ) (id : Nat)
    (p v : ℤ) (ls : Lifespan) :
    Action.insert id Side.SELL p v ls ∉ (Aventador.bidInsertPhase s nb).2 := by
  unfold Aventador.bidInsertPhase
  split_ifs <;> simp

theorem askInsertPhase_snd_sell (s : Aventador.TraderState) (na : ℤ) (id : Nat)
    (p v : ℤ) (ls : Lifespan)
    (h : Action.insert id Side.SELL p v ls ∈ (Aventador.askInsertPhase s na).2) :
    s.ask_id = 0 := by
  unfold Aventador.askInsertPhase at h
  split_ifs at h with hc hp
  · exact hc.1
  · exact hc.1
  · simp at h

theorem askInsertPhase_snd_not_buy (s : Aventador.TraderState) (na : ℤ) (id : Nat)
    (p v : ℤ) (ls : Lifespan) :
    Action.insert id Side.BUY p v ls ∉ (Aventador.askInsertPhase s na).2 := by
  unfold Aventador.askInsertPhase
  split_ifs <;> simp

theorem insert_not_mem_filled (mb ma : ℤ) (s : Aventador.TraderState) (fid : Nat)
    (fv : ℤ) (id : Nat) (side : Side) (p v : ℤ) (ls : Lifespan) :
    Action.insert id side p v ls ∉ (Aventador.on_order_filled mb ma s fid fv).2 := by
  unfold Aventador.on_order_filled
  split_ifs <;> simp

theorem bidInsertPhase_ask_id (s : Aventador.TraderState) (nb : ℤ) :
    (Aventador.bidInsertPhase s nb).1.ask_id = s.ask_id := by
  rw [bidInsertPhase_fst]
  split_ifs <;> rfl

theorem bidInsertPhase_liveAsks (s : Aventador.TraderState) (nb : ℤ) :
    (Aventador.bidInsertPhase s nb).1.liveAsks = s.liveAsks := by
  rw [bidInsertPhase_fst]
  split_ifs <;> rfl

/-- C1 (amended, aventador variant): along every event sequence the trader
holds at most one venue-live order per side, and the handler submits a new
order on a side only when that side's ghost live list is empty, i.e. only
after the terminal acknowledgement of any previous (possibly cancelled) order
on that side has been processed and the side is Idle.  Cancels never clear the
local id, so a cancelled order keeps blocking its side until its terminal
acknowledgement arrives. -/
theorem claim1_theorem (MINIMUM_BID MAXIMUM_ASK : ℤ) (evs : List Aventador.Event) :
    (Aventador.run MINIMUM_BID MAXIMUM_ASK evs).liveBids.length ≤ 1 ∧
    (Aventador.run MINIMUM_BID MAXIMUM_ASK evs).liveAsks.length ≤ 1 ∧
    ∀ (e : Aventador.Event) (id : Nat) (p v : ℤ) (ls : Lifespan),
      (Action.insert id Side.BUY p v ls ∈
          (Aventador.step MINIMUM_BID MAXIMUM_ASK
            (Aventador.run MINIMUM_BID MAXIMUM_ASK evs) e).2 →
        (Aventador.run MINIMUM_BID MAXIMUM_ASK evs).liveBids = []) ∧
      (Action.insert id Side.SELL p v ls ∈
          (Aventador.step MINIMUM_BID MAXIMUM_ASK
            (Aventador.run MINIMUM_BID MAXIMUM_ASK evs) e).2 →
        (Aventador.run MINIMUM_BID MAXIMUM_ASK evs).liveAsks = []) := by
  obtain ⟨h1, h2, h3, h4, hb, ha⟩ := inv_run MINIMUM_BID MAXIMUM_ASK evs
  refine ⟨goodSide_length _ _ hb, goodSide_length _ _ ha, ?_⟩
  intro e id p v ls
  cases e with
  | status id2 f r =>
    constructor <;> (intro hmem; simp [Aventador.step] at hmem)
  | fill id2 v2 =>
    constructor <;>
      (intro hmem;
       exact absurd hmem
        (insert_not_mem_filled MINIMUM_BID MAXIMUM_ASK _ id2 v2 id _ p v ls))
  | book nb na lb la =>
    constructor
    · intro hmem
      have hmem2 : Action.insert id Side.BUY p v ls ∈
          Aventador.cancelPhase (Aventador.run MINIMUM_BID MAXIMUM_ASK evs) nb na lb la ++
            (Aventador.bidInsertPhase (Aventador.run MINIMUM_BID MAXIMUM_ASK evs) nb).2 ++
            (Aventador.askInsertPhase
              (Aventador.bidInsertPhase (Aventador.run MINIMUM_BID MAXIMUM_ASK evs) nb).1 na).2 :=
        hmem
      rw [List.mem_append, List.mem_append] at hmem2
      rcases hmem2 with (hc | hp) | hq
      · exact absurd hc (insert_not_mem_cancelPhase _ nb na lb la id _ p v ls)
      · exact hb.1 (bidInsertPhase_snd_buy _ nb id p v ls hp)
      · exact absurd hq (askInsertPhase_snd_not_buy _ na id p v ls)
    · intro hmem
      have hmem2 : Action.insert id Side.SELL p v ls ∈
          Aventador.cancelPhase (Aventador.run MINIMUM_BID MAXIMUM_ASK evs) nb na lb la ++
            (Aventador.bidInsertPhase (Aventador.run MINIMUM_BID MAXIMUM_ASK evs) nb).2 ++
            (Aventador.askInsertPhase
              (Aventador.bidInsertPhase (Aventador.run MINIMUM_BID MAXIMUM_ASK evs) nb).1 na).2 :=
        hmem
      rw [List.mem_append, List.mem_append] at hmem2
      rcases hmem2 with (hc | hp) | hq
      · exact absurd hc (insert_not_mem_cancelPhase _ nb na lb la id _ p v ls)
      · exact absurd hp (bidInsertPhase_snd_not_sell _ nb id p v ls)
      · have hz := askInsertPhase_snd_sell _ na id p v ls hq
        rw [bidInsertPhase_ask_id] at hz
        exact ha.1 hz

/-- C1 witness: on the very first book update the bid side is Idle and the
submitted ten-lot buy order is the only one; the live list before the step is
empty. -/
theorem claim1_witness :
    (Action.insert 1 Side.BUY 10000 50 Lifespan.GOOD_FOR_DAY ∈
      (Aventador.step 1 2147483647 (Aventador.run 1 2147483647 [])
        (Aventador.Event.book 10000 0 0 0)).2) ∧
    (Aventador.run 1 2147483647 []).liveBids = [] :=
  ⟨by decide,
   ((claim1_theorem 1 2147483647 []).2.2 (Aventador.Event.book 10000 0 0 0)
      1 10000 50 Lifespan.GOOD_FOR_DAY).1 (by decide)⟩

/-- C1 counterexample (Allevaneda_3 variant): after a first book update rests
order 1 at price 10000, a second update with target 10100 emits the cancel of
order 1 and, in the same update and before any terminal acknowledgement, the
replacement insert of order 2 — leaving two venue-live orders on the bid
side. -/
theorem claim1_counterexample :
    (Allevaneda3.on_order_book_update Allevaneda3.initialState 10000 0).1.liveBids = [1] ∧
    (Allevaneda3.on_order_book_update
        (Allevaneda3.on_order_book_update Allevaneda3.initialState 10000 0).1 10100 0).2 =
      [Action.cancel 1, Action.insert 2 Side.BUY 10100 10 Lifespan.FILL_AND_KILL] ∧
    (Allevaneda3.on_order_book_update
        (Allevaneda3.on_order_book_update Allevaneda3.initialState 10000 0).1 10100 0).1.liveBids =
      [1, 2] := by
  decide

/-- C2: in both the aventador and the Allevaneda_3 fill handlers, a fill of
volume `v` on a tracked bid order adds `v` to the confirmed position and emits
exactly one hedge order — a sell (`Side.ASK = Side.SELL`) of volume `v` at
`MIN_BID_NEAREST_TICK`; a fill on a tracked ask subtracts `v` and emits
exactly one buy hedge of volume `v` at `MAX_ASK_NEAREST_TICK`. -/
theorem claim2_theorem :
    (∀ (MINIMUM_BID MAXIMUM_ASK : ℤ) (s : Aventador.TraderState) (id : Nat) (v : ℤ),
      id ∈ s.bids →
        (Aventador.on_order_filled MINIMUM_BID MAXIMUM_ASK s id v).1.position =
          s.position + v ∧
        (Aventador.on_order_filled MINIMUM_BID MAXIMUM_ASK s id v).2.filter Action.isHedge =
          [Action.hedge s.next_id Side.SELL (MIN_BID_NEAREST_TICK MINIMUM_BID) v]) ∧
    (∀ (MINIMUM_BID MAXIMUM_ASK : ℤ) (s : Aventador.TraderState) (id : Nat) (v : ℤ),
      id ∉ s.bids → id ∈ s.asks →
        (Aventador.on_order_filled MINIMUM_BID MAXIMUM_ASK s id v).1.position =
          s.position - v ∧
        (Aventador.on_order_filled MINIMUM_BID MAXIMUM_ASK s id v).2.filter Action.isHedge =
          [Action.hedge s.next_id Side.BUY (MAX_ASK_NEAREST_TICK MAXIMUM_ASK) v]) ∧
    (∀ (MINIMUM_BID MAXIMUM_ASK : ℤ) (s : Allevaneda3.TraderState) (id : Nat) (v : ℤ),
      id ∈ s.bids →
        (Allevaneda3.on_order_filled MINIMUM_BID MAXIMUM_ASK s id v).1.position =
          s.position + v ∧
        (Allevaneda3.on_order_filled MINIMUM_BID MAXIMUM_ASK s id v).2.filter Action.isHedge =
          [Action.hedge s.next_id Side.SELL (MIN_BID_NEAREST_TICK MINIMUM_BID) v]) ∧
    (∀ (MINIMUM_BID MAXIMUM_ASK : ℤ) (s : Allevaneda3.TraderState) (id : Nat) (v : ℤ),
      id ∉ s.bids → id ∈ s.asks →
        (Allevaneda3.on_order_filled MINIMUM_BID MAXIMUM_ASK s id v).1.position =
          s.position - v ∧
        (Allevaneda3.on_order_filled MINIMUM_BID MAXIMUM_ASK s id v).2.filter Action.isHedge =
          [Action.hedge s.next_id Side.BUY (MAX_ASK_NEAREST_TICK MAXIMUM_ASK) v]) := by
  refine ⟨?_, ?_, ?_, ?_⟩
  · intro mb ma s id v h
    unfold Aventador.on_order_filled
    rw [if_pos h]
    exact ⟨rfl, by simp [List.filter, Action.isHedge, Side.ASK]⟩
  · intro mb ma s id v h h'
    unfold Aventador.on_order_filled
    rw [if_neg h, if_pos h']
    exact ⟨rfl, by simp [List.filter, Action.isHedge, Side.BID]⟩
  · intro mb ma s id v h
    unfold Allevaneda3.on_order_filled
    rw [if_pos h]
    exact ⟨rfl, by simp [List.filter, Action.isHedge, Side.ASK]⟩
  · intro mb ma s id v h h'
    unfold Allevaneda3.on_order_filled
    rw [if_neg h, if_pos h']
    exact ⟨rfl, by simp [List.filter, Action.isHedge, Side.BID]⟩

theorem lookupOrder_eq_none (id : Nat) (l : List (Nat × V1.OrderRec))
    (h : id ∉ l.map Prod.fst) : V1.lookupOrder id l = none := by
  induction l with
  | nil => rfl
  | cons kv rest ih =>
    obtain ⟨k, r⟩ := kv
    simp only [List.map_cons, List.mem_cons] at h
    push_neg at h
    unfold V1.lookupOrder
    rw [if_neg (fun hc => h.1 hc.symm)]
    exact ih h.2

theorem removeOrder_lookup_none (id : Nat) (l : List (Nat × V1.OrderRec))
    (h : V1.lookupOrder id l = none) : V1.removeOrder id l = l := by
  induction l with
  | nil => rfl
  | cons kv rest ih =>
    obtain ⟨k, r⟩ := kv
    unfold V1.lookupOrder at h
    by_cases hk : k = id
    · rw [if_pos hk] at h
      exact absurd h (by simp)
    · rw [if_neg hk] at h
      unfold V1.removeOrder
      rw [if_neg hk, ih h]

theorem removeOrder_nodup_lookup (id : Nat) (l : List (Nat × V1.OrderRec))
    (h : (l.map Prod.fst).Nodup) : V1.lookupOrder id (V1.removeOrder id l) = none := by
  induction l with
  | nil => rfl
  | cons kv rest ih =>
    obtain ⟨k, r⟩ := kv
    simp only [List.map_cons, List.nodup_cons] at h
    by_cases hk : k = id
    · unfold V1.removeOrder
      rw [if_pos hk]
      exact lookupOrder_eq_none id rest (hk ▸ h.1)
    · unfold V1.removeOrder
      rw [if_neg hk]
      unfold V1.lookupOrder
      rw [if_neg hk]
      exact ih h.2

theorem length_dequeAppend (l : List ℚ) (x : ℚ) :
    (dequeAppend 200 l x).length = if 200 ≤ l.length then l.length else l.length + 1 := by
  unfold dequeAppend
  split_ifs with h
  · simp [List.length_tail]
    omega
  · simp

theorem aventador_add_sample_length (s : Aventador.VolatilityIndicator) (x : ℚ) :
    (Aventador.add_sample s x).buffer.length =
      if 200 ≤ s.buffer.length then s.buffer.length else s.buffer.length + 1 := by
  unfold Aventador.add_sample
  exact length_dequeAppend s.buffer x

theorem aventador_add_sample_sigma (s : Aventador.VolatilityIndicator) (x : ℚ) :
    (Aventador.add_sample s x).sigma = s.sigma := rfl

theorem aventador_calc_none (s : Aventador.VolatilityIndicator)
    (h : 150 < s.buffer.length) : Aventador.current_volatility s = none := by
  unfold Aventador.current_volatility Aventador.calculation
  rw [if_pos h]
  rfl

theorem aventador_calc_some (s : Aventador.VolatilityIndicator)
    (h : s.buffer.length ≤ 150) :
    Aventador.current_volatility s = some (s.sigma, s) := by
  unfold Aventador.current_volatility Aventador.calculation
  rw [if_neg (by omega)]
  rfl

theorem aventador_reach_sigma (s : Aventador.VolatilityIndicator)
    (h : Aventador.Reach s) : s.sigma = 0.25 := by
  induction h with
  | init => rfl
  | add s x _ ih => rw [aventador_add_sample_sigma, ih]
  | vol s s' _ heq ih =>
    unfold Aventador.calculation at heq
    split_ifs at heq
    rw [← Option.some_inj.mp heq, ih]

theorem aventador_reach_foldl (l : List ℚ) (s : Aventador.VolatilityIndicator)
    (h : Aventador.Reach s) : Aventador.Reach (l.foldl Aventador.add_sample s) := by
  induction l generalizing s with
  | nil => exact h
  | cons x xs ih => exact ih _ (Aventador.Reach.add s x h)

theorem aventador_foldl_length (l : List ℚ) (s : Aventador.VolatilityIndicator)
    (h : s.buffer.length + l.length ≤ 200) :
    (l.foldl Aventador.add_sample s).buffer.length = s.buffer.length + l.length := by
  induction l generalizing s with
  | nil => simp
  | cons x xs ih =>
    have hlt : ¬ 200 ≤ s.buffer.length := by
      simp only [List.length_cons] at h
      omega
    have hstep : (Aventador.add_sample s x).buffer.length = s.buffer.length + 1 := by
      rw [aventador_add_sample_length, if_neg hlt]
    have := ih (Aventador.add_sample s x) (by rw [hstep]; simp only [List.length_cons] at h; omega)
    simp only [List.foldl_cons, this, hstep, List.length_cons]
    omega

theorem v1_add_sample_volatility (s : V1.VolatilityIndicator) (x : ℚ) :
    (V1.add_sample s x).volatility = s.volatility := by
  unfold V1.add_sample
  split_ifs <;> rfl

theorem v1_add_sample_length (s : V1.VolatilityIndicator) (x : ℚ) :
    s.buffer.length ≤ (V1.add_sample s x).buffer.length := by
  unfold V1.add_sample
  split_ifs with h
  · rw [show ({ s with buffer := dequeAppend 200 s.buffer x } :
        V1.VolatilityIndicator).buffer = dequeAppend 200 s.buffer x from rfl,
      length_dequeAppend]
    split_ifs <;> omega
  · exact le_refl _

theorem v1_calculation_buffer (s : V1.VolatilityIndicator) :
    (V1.calculation s).buffer = s.buffer := by
  unfold V1.calculation
  split_ifs <;> rfl

theorem v1_reach_default (s : V1.VolatilityIndicator) (h : V1.Reach s)
    (hlen : s.buffer.length ≤ 20) : s.volatility = 0.25 := by
  induction h with
  | init => rfl
  | add s x hr ih =>
    rw [v1_add_sample_volatility]
    exact ih (le_trans (v1_add_sample_length s x) hlen)
  | vol s hr ih =>
    rw [v1_calculation_buffer] at hlen
    unfold V1.calculation
    rw [if_neg (by omega)]
    exact ih hlen

theorem logReturns_length (l : List ℚ) : (V1.logReturns l).length = l.length - 1 := by
  unfold V1.logReturns
  rw [List.length_zipWith, List.length_tail]
  omega

/-- C2 witness: concrete bid and ask fills in both variants, with tracked
order ids, at `MINIMUM_BID = 1` and `MAXIMUM_ASK = 2147483647`. -/
theorem claim2_witness :
    ((1 : Nat) ∈ (⟨0, 0, 0, 0, 0, 5, [1], [7], [1], [7]⟩ : Aventador.TraderState).bids ∧
      (Aventador.on_order_filled 1 2147483647 ⟨0, 0, 0, 0, 0, 5, [1], [7], [1], [7]⟩ 1 10).1.position =
        0 + 10 ∧
      (Aventador.on_order_filled 1 2147483647 ⟨0, 0, 0, 0, 0, 5, [1], [7], [1], [7]⟩ 1 10).2.filter
          Action.isHedge =
        [Action.hedge 5 Side.SELL (MIN_BID_NEAREST_TICK 1) 10]) ∧
    ((7 : Nat) ∉ (⟨0, 0, 0, 0, 0, 5, [1], [7], [1], [7]⟩ : Aventador.TraderState).bids ∧
      (7 : Nat) ∈ (⟨0, 0, 0, 0, 0, 5, [1], [7], [1], [7]⟩ : Aventador.TraderState).asks ∧
      (Aventador.on_order_filled 1 2147483647 ⟨0, 0, 0, 0, 0, 5, [1], [7], [1], [7]⟩ 7 10).1.position =
        0 - 10 ∧
      (Aventador.on_order_filled 1 2147483647 ⟨0, 0, 0, 0, 0, 5, [1], [7], [1], [7]⟩ 7 10).2.filter
          Action.isHedge =
        [Action.hedge 5 Side.BUY (MAX_ASK_NEAREST_TICK 2147483647) 10]) ∧
    ((1 : Nat) ∈ (⟨0, 0, 0, 0, 0, 5, [1], [7], [1], [7]⟩ : Allevaneda3.TraderState).bids ∧
      (Allevaneda3.on_order_filled 1 2147483647 ⟨0, 0, 0, 0, 0, 5, [1], [7], [1], [7]⟩ 1 10).1.position =
        0 + 10 ∧
      (Allevaneda3.on_order_filled 1 2147483647 ⟨0, 0, 0, 0, 0, 5, [1], [7], [1], [7]⟩ 1 10).2.filter
          Action.isHedge =
        [Action.hedge 5 Side.SELL (MIN_BID_NEAREST_TICK 1) 10]) ∧
    ((7 : Nat) ∉ (⟨0, 0, 0, 0, 0, 5, [1], [7], [1], [7]⟩ : Allevaneda3.TraderState).bids ∧
      (7 : Nat) ∈ (⟨0, 0, 0, 0, 0, 5, [1], [7], [1], [7]⟩ : Allevaneda3.TraderState).asks ∧
      (Allevaneda3.on_order_filled 1 2147483647 ⟨0, 0, 0, 0, 0, 5, [1], [7], [1], [7]⟩ 7 10).1.position =
        0 - 10 ∧
      (Allevaneda3.on_order_filled 1 2147483647 ⟨0, 0, 0, 0, 0, 5, [1], [7], [1], [7]⟩ 7 10).2.filter
          Action.isHedge =
        [Action.hedge 5 Side.BUY (MAX_ASK_NEAREST_TICK 2147483647) 10]) :=
  ⟨⟨by decide,
    (claim2_theorem.1 1 2147483647 ⟨0, 0, 0, 0, 0, 5, [1], [7], [1], [7]⟩ 1 10 (by decide)).1,
    (claim2_theorem.1 1 2147483647 ⟨0, 0, 0, 0, 0, 5, [1], [7], [1], [7]⟩ 1 10 (by decide)).2⟩,
   ⟨by decide, by decide,
    (claim2_theorem.2.1 1 2147483647 ⟨0, 0, 0, 0, 0, 5, [1], [7], [1], [7]⟩ 7 10 (by decide)
      (by decide)).1,
    (claim2_theorem.2.1 1 2147483647 ⟨0, 0, 0, 0, 0, 5, [1], [7], [1], [7]⟩ 7 10 (by decide)
      (by decide)).2⟩,
   ⟨by decide,
    (claim2_theorem.2.2.1 1 2147483647 ⟨0, 0, 0, 0, 0, 5, [1], [7], [1], [7]⟩ 1 10 (by decide)).1,
    (claim2_theorem.2.2.1 1 2147483647 ⟨0, 0, 0, 0, 0, 5, [1], [7], [1], [7]⟩ 1 10 (by decide)).2⟩,
   ⟨by decide, by decide,
    (claim2_theorem.2.2.2 1 2147483647 ⟨0, 0, 0, 0, 0, 5, [1], [7], [1], [7]⟩ 7 10 (by decide)
      (by decide)).1,
    (claim2_theorem.2.2.2 1 2147483647 ⟨0, 0, 0, 0, 0, 5, [1], [7], [1], [7]⟩ 7 10 (by decide)
      (by decide)).2⟩⟩

/-- C5: a terminal acknowledgement with zero fill and zero remaining volume on
a tracked order rolls the stored signed volume back out of the theoretical
position, decrements the active-order count, removes the record and leaves the
confirmed (real) position unchanged; in particular `update_order` applied
right after `add_order` of a fresh id restores the tracker state exactly, and
with unique keys the removed id no longer resolves. -/
theorem claim5_theorem :
    (∀ (s : V1.OutsandingOrders) (id : Nat) (r : V1.OrderRec),
        V1.lookupOrder id s.orders = some r →
        V1.update_order s id 0 0 =
          some ⟨if r.side = Side.BID then s.theorical_position - r.volume
                else s.theorical_position + r.volume,
                s.real_position, s.active_orders - 1,
                V1.removeOrder id s.orders⟩) ∧
    (∀ (s : V1.OutsandingOrders) (t : ℚ) (id : Nat) (side : Side) (p v : ℤ),
        V1.lookupOrder id s.orders = none →
        V1.update_order (V1.add_order s t id side p v) id 0 0 = some s) ∧
    (∀ (id : Nat) (l : List (Nat × V1.OrderRec)),
        (l.map Prod.fst).Nodup → V1.lookupOrder id (V1.removeOrder id l) = none) := by
  refine ⟨?_, ?_, ?_⟩
  · intro s id r hlook
    unfold V1.update_order
    rw [if_pos ⟨rfl, rfl⟩, hlook]
  · intro s t id side p v hnone
    have hrm := removeOrder_lookup_none id s.orders hnone
    obtain ⟨th, real, act, ords⟩ := s
    simp only at hrm
    unfold V1.add_order V1.update_order
    rw [if_pos ⟨rfl, rfl⟩]
    simp only [hrm, V1.lookupOrder, if_pos rfl, V1.removeOrder]
    rcases side with _ | _ <;>
      simp [Side.BID] <;> omega
  · exact removeOrder_nodup_lookup

/-- C5 witness: a reject acknowledgement for tracked sell order 9 rolls its 7
lots back into the theoretical position, and submit-then-reject of fresh bid
order 9 on an empty tracker restores the initial state. -/
theorem claim5_witness :
    (V1.lookupOrder 9 ([(9, ⟨1, Side.SELL, 5000, 7⟩)] : List (Nat × V1.OrderRec)) =
        some ⟨1, Side.SELL, 5000, 7⟩ ∧
      V1.update_order ⟨2, 3, 4, [(9, ⟨1, Side.SELL, 5000, 7⟩)]⟩ 9 0 0 =
        some ⟨if (⟨1, Side.SELL, 5000, 7⟩ : V1.OrderRec).side = Side.BID then 2 - 7 else 2 + 7,
              3, 4 - 1, V1.removeOrder 9 [(9, ⟨1, Side.SELL, 5000, 7⟩)]⟩) ∧
    (V1.lookupOrder 9 (⟨0, 0, 0, []⟩ : V1.OutsandingOrders).orders = none ∧
      V1.update_order (V1.add_order ⟨0, 0, 0, []⟩ 1 9 Side.BID 10000 10) 9 0 0 =
        some ⟨0, 0, 0, []⟩) :=
  ⟨⟨by decide, claim5_theorem.1 ⟨2, 3, 4, [(9, ⟨1, Side.SELL, 5000, 7⟩)]⟩ 9
      ⟨1, Side.SELL, 5000, 7⟩ (by decide)⟩,
   ⟨by decide, claim5_theorem.2.1 ⟨0, 0, 0, []⟩ 1 9 Side.BID 10000 10 (by decide)⟩⟩

/-- C8 (amended): while the buffer holds at most `min_size` prices (i.e. fewer
than `min_size` derived log-returns) the V1 estimator returns the startup
default 0.25 exactly, whatever the buffered prices; above the threshold it
returns the square root of the sum of squared log-returns divided by the
number of returns, with no annualization factor; the aventador estimator,
above its threshold of 150, raises `AttributeError` (`none`) instead of
returning anything. -/
theorem claim8_theorem :
    (∀ s : V1.VolatilityIndicator, V1.Reach s → s.buffer.length ≤ 20 →
      (V1.current_vol s).1 = 0.25) ∧
    (∀ s : V1.VolatilityIndicator, 20 < s.buffer.length →
      (V1.current_vol s).1 = Real.sqrt (V1.varianceTerm s.buffer)) ∧
    (∀ s : Aventador.VolatilityIndicator, 150 < s.buffer.length →
      Aventador.current_volatility s = none) := by
  refine ⟨?_, ?_, ?_⟩
  · intro s hr hlen
    unfold V1.current_vol V1.calculation
    rw [if_neg (by omega)]
    exact v1_reach_default s hr hlen
  · intro s hlen
    unfold V1.current_vol V1.calculation
    rw [if_pos hlen]
  · intro s hlen
    exact aventador_calc_none s hlen

/-- C8 witness: the fresh V1 estimator returns the default; a 21-price buffer
returns the formula value; a 151-price aventador buffer errors. -/
theorem claim8_witness :
    ((⟨[], 0.25⟩ : V1.VolatilityIndicator).buffer.length ≤ 20 ∧
      (V1.current_vol ⟨[], 0.25⟩).1 = 0.25) ∧
    (20 < (⟨List.replicate 21 (2 : ℚ), 0.25⟩ : V1.VolatilityIndicator).buffer.length ∧
      (V1.current_vol ⟨List.replicate 21 (2 : ℚ), 0.25⟩).1 =
        Real.sqrt (V1.varianceTerm (List.replicate 21 (2 : ℚ)))) ∧
    (150 < (⟨List.replicate 151 (2 : ℚ), 0.25⟩ : Aventador.VolatilityIndicator).buffer.length ∧
      Aventador.current_volatility ⟨List.replicate 151 (2 : ℚ), 0.25⟩ = none) :=
  ⟨⟨by simp, claim8_theorem.1 ⟨[], 0.25⟩ V1.Reach.init (by simp)⟩,
   ⟨by norm_num, claim8_theorem.2.1 ⟨List.replicate 21 (2 : ℚ), 0.25⟩ (by norm_num)⟩,
   ⟨by norm_num, claim8_theorem.2.2 ⟨List.replicate 151 (2 : ℚ), 0.25⟩ (by norm_num)⟩⟩

/-- C8 counterexample: drive the aventador estimator from `__init__` with 151
trade ticks; the buffer then holds 151 prices (at least `min_size = 150`
returns), yet `current_volatility()` raises `AttributeError` (modelled `none`)
instead of returning the claimed sample standard deviation. -/
theorem claim8_counterexample :
    150 < ((List.replicate 151 (10000 : ℚ)).foldl Aventador.add_sample
      ⟨[], 0.25⟩).buffer.length ∧
    Aventador.current_volatility
      ((List.replicate 151 (10000 : ℚ)).foldl Aventador.add_sample ⟨[], 0.25⟩) = none := by
  have hb0 : ((⟨[], 0.25⟩ : Aventador.VolatilityIndicator)).buffer.length = 0 := rfl
  have hlen : ((List.replicate 151 (10000 : ℚ)).foldl Aventador.add_sample
      ⟨[], 0.25⟩).buffer.length = 151 := by
    have h := aventador_foldl_length (List.replicate 151 (10000 : ℚ)) ⟨[], 0.25⟩
      (by rw [hb0, List.length_replicate]; norm_num)
    rw [h, hb0, List.length_replicate]
  refine ⟨by omega, aventador_calc_none _ (by omega)⟩

/-- C9 (amended): the buffer of the V1 estimator holds `n` prices, yielding
`n − 1` log-returns, and its variance is the sum of squared returns divided by
`len(buffer) − 1`, i.e. by exactly the number of returns (not one less); the
test3 `Volatility` class, whose buffer holds the returns themselves, divides
by one less than the number of buffered returns as the claim states. -/
theorem claim9_theorem :
    (∀ l : List ℚ, (V1.logReturns l).length = l.length - 1) ∧
    (∀ l : List ℚ, 2 ≤ l.length →
      V1.varianceTerm l =
        ((V1.logReturns l).map (fun r => r ^ 2)).sum / ((V1.logReturns l).length : ℝ)) ∧
    (∀ s : Test3.Volatility, (Test3.calculation s).vol =
      Real.sqrt (252 * 24 * 3600 * 4 * ((s.buffer.map (fun r => r ^ 2)).sum) /
        ((s.buffer.length : ℝ) - 1))) := by
  refine ⟨logReturns_length, ?_, fun s => rfl⟩
  intro l hlen
  unfold V1.varianceTerm
  rw [logReturns_length]
  have hcast : ((l.length - 1 : ℕ) : ℝ) = (l.length : ℝ) - 1 := by
    have : 1 ≤ l.length := by omega
    push_cast [this]
    ring
  rw [hcast]

/-- C9 witness: the price buffer `[1, 2, 4]` yields two returns, and the
variance divides the sum of squares by that return count 2. -/
theorem claim9_witness :
    2 ≤ ([1, 2, 4] : List ℚ).length ∧
    V1.varianceTerm [1, 2, 4] =
      ((V1.logReturns [1, 2, 4]).map (fun r => r ^ 2)).sum /
        ((V1.logReturns [1, 2, 4]).length : ℝ) :=
  ⟨by norm_num, claim9_theorem.2.1 [1, 2, 4] (by norm_num)⟩

/-- C9 counterexample: on the price buffer `[1, 2, 4]` (two log-returns, both
of squared value `(ln 2)²`), the V1 variance is `(ln 2)²` — the sum `2(ln 2)²`
divided by the number of returns — whereas the claimed `Σrᵢ²/(n−1)` over the
`n = 2` returns would be `2(ln 2)²`; they differ. -/
theorem claim9_counterexample :
    V1.varianceTerm [1, 2, 4] ≠
      ((V1.logReturns [1, 2, 4]).map (fun r => r ^ 2)).sum /
        (((V1.logReturns [1, 2, 4]).length : ℝ) - 1) := by
  have hlog : V1.logReturns [1, 2, 4] =
      [Real.log 1 - Real.log 2, Real.log 2 - Real.log 4] := by
    norm_num [V1.logReturns]
  have h4 : Real.log 4 = 2 * Real.log 2 := by
    rw [show (4 : ℝ) = 2 ^ 2 by norm_num, Real.log_pow]
    push_cast
    ring
  have hl2 : 0 < Real.log 2 := Real.log_pos (by norm_num)
  unfold V1.varianceTerm
  rw [hlog]
  simp only [List.map_cons, List.map_nil, List.sum_cons, List.sum_nil,
    List.length_cons, List.length_nil, Real.log_one, h4]
  intro heq
  norm_num at heq
  nlinarith [heq, hl2]

/-- C10: every reachable state of the aventador `VolatilityIndicator` still
carries the initial default sigma 0.25 (the updating assignment can never
complete); `current_volatility()` raises `AttributeError` (`none`) exactly
when the buffer holds more than `min_size = 150` samples, and returns the
default sigma while it holds at most 150. -/
theorem claim10_theorem (s : Aventador.VolatilityIndicator) (h : Aventador.Reach s) :
    s.sigma = 0.25 ∧
    (150 < s.buffer.length → Aventador.current_volatility s = none) ∧
    (s.buffer.length ≤ 150 → Aventador.current_volatility s = some (0.25, s)) := by
  have hsig := aventador_reach_sigma s h
  refine ⟨hsig, fun hlen => aventador_calc_none s hlen, fun hlen => ?_⟩
  rw [aventador_calc_some s hlen, hsig]

/-- C10 witness: after 151 samples from the initial state the estimator is in
a reachable state with more than 150 buffered samples and raises. -/
theorem claim10_witness :
    150 < ((List.replicate 151 (9900 : ℚ)).foldl Aventador.add_sample
      ⟨[], 0.25⟩).buffer.length ∧
    Aventador.current_volatility
      ((List.replicate 151 (9900 : ℚ)).foldl Aventador.add_sample ⟨[], 0.25⟩) = none := by
  have hb0 : ((⟨[], 0.25⟩ : Aventador.VolatilityIndicator)).buffer.length = 0 := rfl
  have hlen : ((List.replicate 151 (9900 : ℚ)).foldl Aventador.add_sample
      ⟨[], 0.25⟩).buffer.length = 151 := by
    have h := aventador_foldl_length (List.replicate 151 (9900 : ℚ)) ⟨[], 0.25⟩
      (by rw [hb0, List.length_replicate]; norm_num)
    rw [h, hb0, List.length_replicate]
  have hreach : Aventador.Reach
      ((List.replicate 151 (9900 : ℚ)).foldl Aventador.add_sample ⟨[], 0.25⟩) :=
    aventador_reach_foldl _ _ Aventador.Reach.init
  exact ⟨by omega, (claim10_theorem _ hreach).2.1 (by omega)⟩

end RTG
